import Mathlib

/-!
Shallow embedding of the Docker tarball ingestion and registry-push pipeline
of the buco dashboard server (the Express backend's upload route and its
helper functions `validateDockerTarFile`, `loadDockerImagesFromTar`,
`pushImagesToLocalRegistry` and `processDockerTarFile`).

External effects (subprocess invocations of `docker`, `tar`, `curl`, and
`fs` calls) are modelled as environments: each fallible call is an
`Except String α` value, the `String` on the error side standing for the
JavaScript exception's `.message`.  JavaScript string primitives
(`split`, `trim`, `includes`, array `pop`/`join`) are modelled on the
character lists underlying Lean strings so that every definition
evaluates by kernel reduction.
-/

namespace Buco

/-! ### JavaScript string primitives -/

/-- Whether `sub` is a prefix of `l` (character lists). -/
def listHasPrefix : List Char → List Char → Bool
  | _, [] => true
  | [], _ :: _ => false
  | a :: as, b :: bs => a == b && listHasPrefix as bs

/-- If `sep` is a prefix of the list, the remainder after dropping it. -/
def dropPrefixChars : List Char → List Char → Option (List Char)
  | l, [] => some l
  | [], _ :: _ => none
  | a :: as, b :: bs => if a == b then dropPrefixChars as bs else none

/-- Whether `sub` occurs contiguously in the list. -/
def hasInfixAux (sub : List Char) : List Char → Bool
  | [] => sub.isEmpty
  | c :: rest => listHasPrefix (c :: rest) sub || hasInfixAux sub rest

/-- JavaScript `s.includes(sub)`. -/
def jsIncludes (s sub : String) : Bool := hasInfixAux sub.data s.data

/-- Splitting worker: scans the input, cutting at each occurrence of the
(non-empty) separator `sep`; `fuel` bounds the recursion and is always given
as the input length, which suffices since every step consumes a character. -/
def splitCharsAux (sep : List Char) : Nat → List Char → List Char → List (List Char)
  | _, [], acc => [acc.reverse]
  | 0, s, acc => [acc.reverse ++ s]
  | fuel+1, c :: rest, acc =>
    match dropPrefixChars (c :: rest) sep with
    | some rest2 => acc.reverse :: splitCharsAux sep fuel rest2 []
    | none => splitCharsAux sep fuel rest (c :: acc)

/-- JavaScript `s.split(sep)` (for the empty separator JS splits into
single characters). -/
def jsSplit (s sep : String) : List String :=
  if sep.data.isEmpty then s.data.map (fun c => String.mk [c])
  else (splitCharsAux sep.data s.data.length s.data []).map String.mk

/-- JavaScript `s.trim()`: strip whitespace from both ends. -/
def jsTrim (s : String) : String :=
  String.mk (((s.data.dropWhile Char.isWhitespace).reverse.dropWhile Char.isWhitespace).reverse)

/-- JavaScript `parts.join(sep)`. -/
def jsJoin (sep : String) : List String → String
  | [] => ""
  | [x] => x
  | x :: y :: rest => x ++ sep ++ jsJoin sep (y :: rest)

/-- Last element of a list of strings (JavaScript `array.pop()` after a
split, which never yields an empty array). -/
def lastD (d : String) : List String → String
  | [] => d
  | [x] => x
  | _ :: y :: rest => lastD d (y :: rest)

/-! ### Data model -/

/-- Result of `loadDockerImagesFromTar`. -/
structure LoadResult where
  images : List String
  errors : List String
  warnings : List String
deriving Repr, DecidableEq

/-- One entry of `pushedImages`, as pushed by `pushImagesToLocalRegistry`.
`error` is present only on the failure records. -/
structure PushOutcome where
  originalName : String
  localName : String
  registryUrl : String
  tag : String
  status : String
  type : String
  error : Option String
deriving Repr, DecidableEq

/-- Result of `pushImagesToLocalRegistry`. -/
structure PushResults where
  pushedImages : List PushOutcome
  errors : List String
  warnings : List String
deriving Repr, DecidableEq

/-- The aggregated result object built by `processDockerTarFile` and
serialized as `dockerResult` in the HTTP response. -/
structure PipelineResult where
  loadedImages : List String
  pushedImages : List PushOutcome
  errors : List String
  warnings : List String
deriving Repr, DecidableEq

/-! ### Tar validator (`validateDockerTarFile`) -/

/-- The part of `fs.stat` the validator reads. -/
structure FileStat where
  isFile : Bool
  size : Nat
deriving Repr, DecidableEq

/-- Environment of one `validateDockerTarFile` call: the `fs.stat` result and
the two `tar -tf` subprocess invocations (`| head -10`, then the full list).
An `Except.error` models the call throwing. -/
structure ValidateEnv where
  stat : Except String FileStat
  tarListHead : Except String String
  tarListFull : Except String String

/-- The `{isValid, error?}` record the validator returns. -/
structure ValidationResult where
  isValid : Bool
  error : Option String
deriving Repr, DecidableEq

/-- The 5 GiB ceiling (`5 * 1024 * 1024 * 1024`). -/
def maxTarSize : Nat := 5 * 1024 * 1024 * 1024

/-- Embedding of `validateDockerTarFile`.  The checks run in source order:
stat failure is caught by the outer catch (so the function never throws),
then not-a-regular-file, empty file, oversized file, and the two tar
listings, whose failure yields the not-a-tar error.  The manifest.json
check over the full listing only logs a console warning and never affects
the result. -/
def validateDockerTarFile (env : ValidateEnv) : ValidationResult :=
  match env.stat with
  | .error msg => { isValid := false, error := some ("Validation failed: " ++ msg) }
  | .ok stats =>
    if !stats.isFile then
      { isValid := false, error := some "Uploaded file is not a valid file" }
    else if stats.size = 0 then
      { isValid := false, error := some "Tar file is empty" }
    else if stats.size > maxTarSize then
      { isValid := false, error := some "Tar file is too large (max 5GB)" }
    else
      match env.tarListHead with
      | .error _ => { isValid := false, error := some "File is not a valid tar archive" }
      | .ok _ =>
        match env.tarListFull with
        | .error _ => { isValid := false, error := some "File is not a valid tar archive" }
        | .ok _fullList => { isValid := true, error := none }

/-! ### Image loader (`loadDockerImagesFromTar`) -/

/-- Environment of one loader call: whether the tar path exists, the
`docker load -i` invocation (stdout, stderr on success), the per-id
`docker inspect --format RepoTags` invocation, and the
`docker images --format Repository:Tag --filter dangling=false | head -20`
invocation. -/
structure LoadEnv where
  pathExists : Bool
  dockerLoad : Except String (String × String)
  inspect : String → Except String String
  dockerImages : Except String String

/-- One regex match step: the JS code matches `/Loaded image: (.+)/g`
(resp. the `Loaded image ID: ` variant) against a line, then strips the
literal prefix and trims.  The match exists when the pattern occurs in the
line with at least one character after it; the captured text is everything
from the first occurrence to the end of the line. -/
def matchAfter (pat line : String) : Option String :=
  match jsSplit line pat with
  | [] => none
  | [_] => none
  | _ :: rest =>
    let tail := jsJoin pat rest
    if tail = "" then none else some (jsTrim tail)

/-- Strategy 1: the values of the `Loaded image: <name>` matches in the
`docker load` stdout (`loadedImageMatches` in the source). -/
def loadedImageMatches (stdout : String) : List String :=
  (jsSplit stdout "\n").filterMap (matchAfter "Loaded image: ")

/-- The ids of the `Loaded image ID: <id>` matches in the `docker load`
stdout (`imageIdMatches` in the source). -/
def imageIdMatches (stdout : String) : List String :=
  (jsSplit stdout "\n").filterMap (matchAfter "Loaded image ID: ")

/-- Parsing of one `docker inspect` RepoTags output:
`inspectOutput.trim().split(' ').filter(tag => tag && tag !== '<none>')`. -/
def repoTagsOf (inspectOutput : String) : List String :=
  (jsSplit (jsTrim inspectOutput) " ").filter (fun t => !(t == "") && !(t == "<none>"))

/-- Strategy 2, image half: the tags recovered by inspecting each loaded
image id (a failed inspect contributes nothing to the image list). -/
def inspectImages (env : LoadEnv) (stdout : String) : List String :=
  (imageIdMatches stdout).flatMap (fun imageId =>
    match env.inspect imageId with
    | .ok out => repoTagsOf out
    | .error _ => [])

/-- Strategy 2, warning half: the loop pushes this warning exactly for the
ids whose `docker inspect` call throws. -/
def inspectWarnings (env : LoadEnv) (stdout : String) : List String :=
  (imageIdMatches stdout).filterMap (fun imageId =>
    match env.inspect imageId with
    | .ok _ => none
    | .error _ => some ("Loaded image with ID " ++ imageId ++ " but couldn't determine name"))

/-- Parsing of the `docker images` output:
`split('\n').filter(img => img && img !== '<none>:<none>' && img.trim() !== '')`. -/
def recentImagesOf (imagesOutput : String) : List String :=
  (jsSplit (jsTrim imagesOutput) "\n").filter
    (fun img => !(img == "") && !(img == "<none>:<none>") && !(jsTrim img == ""))

/-- Strategy 3: list recently available non-dangling images and keep at
most 5, with a warning that this is an approximation; a failed listing
yields only the could-not-determine warning. -/
def recentImagesStep (env : LoadEnv) : List String × List String :=
  match env.dockerImages with
  | .error _ => ([], ["Could not determine loaded images"])
  | .ok out =>
    let recentImages := recentImagesOf out
    if recentImages.isEmpty then ([], [])
    else (recentImages.take 5,
      ["Could not parse loaded images from docker load output, using recently available images"])

/-- The stderr check after `docker load`: a warning is pushed when stderr
is non-empty and mentions `Error` or `failed`. -/
def dockerLoadWarnings (stderr : String) : List String :=
  if !(stderr == "") && (jsIncludes stderr "Error" || jsIncludes stderr "failed")
  then ["Docker load warning: " ++ stderr] else []

/-- The error text reported when no strategy recovered an image name. -/
def noImagesLoadedMsg : String := "No Docker images were successfully loaded from the tar file"

/-- Embedding of `loadDockerImagesFromTar`.  A missing tar path or a failed
`docker load` is caught by the outer catch and reported as a
`Failed to load images from tar:` error (the loader never throws).
Otherwise the three name-recovery strategies run in priority order, each
tried only while the image list is still empty; strategy 2's per-id
warnings persist even when strategy 3 supplies the images.  If the image
list is still empty at the end, `noImagesLoadedMsg` is appended to the
errors. -/
def loadDockerImagesFromTar (env : LoadEnv) : LoadResult :=
  if !env.pathExists then
    { images := [], errors := ["Failed to load images from tar: Tar file not found"], warnings := [] }
  else
    match env.dockerLoad with
    | .error msg =>
      { images := [], errors := ["Failed to load images from tar: " ++ msg], warnings := [] }
    | .ok (stdout, stderr) =>
      let w0 := dockerLoadWarnings stderr
      let s1 := loadedImageMatches stdout
      let step :=
        if !s1.isEmpty then (s1, w0)
        else
          let s2 := inspectImages env stdout
          let w2 := inspectWarnings env stdout
          if !s2.isEmpty then (s2, w0 ++ w2)
          else
            let s3 := recentImagesStep env
            (s3.1, w0 ++ w2 ++ s3.2)
      { images := step.1,
        errors := if step.1.isEmpty then [noImagesLoadedMsg] else [],
        warnings := step.2 }

/-! ### Registry pusher (`pushImagesToLocalRegistry`) -/

/-- Environment of the loop body for one image: the four fallible docker
invocations in source order (`docker tag` original, `docker push` original,
`docker tag` latest, `docker push` latest — the push results carry their
stderr) and the two best-effort `docker rmi` cleanups, whose failures the
source catches and only logs. -/
structure ImagePushEnv where
  tagOriginal : Except String Unit
  pushOriginal : Except String String
  tagLatest : Except String Unit
  pushLatest : Except String String
  rmiOriginal : Except String Unit
  rmiLatest : Except String Unit

/-- Environment of one `pushImagesToLocalRegistry` call: the `curl` registry
probe and the per-image docker invocations. -/
structure PushEnv where
  registryTest : Except String String
  perImage : String → ImagePushEnv

/-- `imageName.includes('/') ? imageName.split('/').pop() : imageName`. -/
def imageBaseName (imageName : String) : String :=
  if jsIncludes imageName "/" then lastD "" (jsSplit imageName "/") else imageName

/-- `const [repoName, originalTag = 'latest'] = imageBaseName.split(':')`:
the first two segments, the tag defaulting to `latest` only when the split
has a single segment (JS defaults only `undefined`, not the empty string). -/
def repoAndTag (imageName : String) : String × String :=
  match jsSplit (imageBaseName imageName) ":" with
  | [] => ("", "latest")
  | [r] => (r, "latest")
  | r :: t :: _ => (r, t)

/-- `originalLocalImageName = registry/repoName:originalTag`. -/
def originalLocalImageName (url imageName : String) : String :=
  url ++ "/" ++ (repoAndTag imageName).1 ++ ":" ++ (repoAndTag imageName).2

/-- `latestLocalImageName = registry/repoName:latest`. -/
def latestLocalImageName (url imageName : String) : String :=
  url ++ "/" ++ (repoAndTag imageName).1 ++ ":latest"

/-- The two placeholder failure records the catch block pushes for an image
whose processing threw with message `msg`. -/
def failedOutcomes (url imageName msg : String) : List PushOutcome :=
  [ { originalName := imageName, localName := originalLocalImageName url imageName,
      registryUrl := url, tag := (repoAndTag imageName).2, status := "failed",
      type := "original", error := some msg },
    { originalName := imageName, localName := latestLocalImageName url imageName,
      registryUrl := url, tag := "latest", status := "failed",
      type := "latest", error := some msg } ]

/-- The two success records pushed after both pushes of an image succeeded. -/
def successOutcomes (url imageName : String) : List PushOutcome :=
  [ { originalName := imageName, localName := originalLocalImageName url imageName,
      registryUrl := url, tag := (repoAndTag imageName).2, status := "success",
      type := "original", error := none },
    { originalName := imageName, localName := latestLocalImageName url imageName,
      registryUrl := url, tag := "latest", status := "success",
      type := "latest", error := none } ]

/-- The stderr check after each `docker push`: a warning is pushed when
stderr is non-empty and mentions `error` or `failed` (lowercase here,
unlike the loader's check). -/
def pushStderrWarnings (localName stderr : String) : List String :=
  if !(stderr == "") && (jsIncludes stderr "error" || jsIncludes stderr "failed")
  then ["Push warning for " ++ localName ++ ": " ++ stderr] else []

/-- What the loop body of `pushImagesToLocalRegistry` appends to the three
result lists for one image. -/
structure OneImageResult where
  outcomes : List PushOutcome
  errors : List String
  warnings : List String
deriving Repr, DecidableEq

/-- Embedding of the per-image loop body of `pushImagesToLocalRegistry`
(the `try { tag/push original; tag/push latest; record successes; rmi }
catch { record error and two failed outcomes }` block).  The first
throwing step jumps to the catch, so the success records exist only when
all four tag/push steps succeeded; warnings pushed before the throwing
step persist; the `docker rmi` cleanups cannot affect the result. -/
def pushOneImage (url : String) (env : ImagePushEnv) (imageName : String) : OneImageResult :=
  let fail (msg : String) (ws : List String) : OneImageResult :=
    { outcomes := failedOutcomes url imageName msg,
      errors := ["Failed to push " ++ imageName ++ ": " ++ msg],
      warnings := ws }
  match env.tagOriginal with
  | .error msg => fail msg []
  | .ok _ =>
    match env.pushOriginal with
    | .error msg => fail msg []
    | .ok originalStderr =>
      let w1 := pushStderrWarnings (originalLocalImageName url imageName) originalStderr
      match env.tagLatest with
      | .error msg => fail msg w1
      | .ok _ =>
        match env.pushLatest with
        | .error msg => fail msg w1
        | .ok latestStderr =>
          let w2 := pushStderrWarnings (latestLocalImageName url imageName) latestStderr
          { outcomes := successOutcomes url imageName, errors := [], warnings := w1 ++ w2 }

/-- The first failing step of the per-image try block, in source order
(`none` when all four tag/push invocations succeed).  This is the
exception the catch block receives. -/
def stepError (env : ImagePushEnv) : Option String :=
  match env.tagOriginal with
  | .error msg => some msg
  | .ok _ =>
    match env.pushOriginal with
    | .error msg => some msg
    | .ok _ =>
      match env.tagLatest with
      | .error msg => some msg
      | .ok _ =>
        match env.pushLatest with
        | .error msg => some msg
        | .ok _ => none

/-- The advisory registry probe before the loop: the `curl ... || echo` at
most warns; a thrown probe also only warns. -/
def registryTestWarnings (url : String) (t : Except String String) : List String :=
  match t with
  | .ok registryTest =>
    if jsIncludes registryTest "Registry not accessible"
    then ["Local registry at " ++ url ++ " may not be accessible. Proceeding with push attempts anyway."]
    else []
  | .error msg => ["Could not verify registry connectivity: " ++ msg]

/-- Embedding of `pushImagesToLocalRegistry`.  The JS loop appends each
image's records to three mutable lists in order, so each final list is the
concatenation of the per-image contributions; nothing in the loop escapes
its per-image catch, so the function's own outer catch is unreachable. -/
def pushImagesToLocalRegistry (url : String) (env : PushEnv) (imageNames : List String) : PushResults :=
  { pushedImages := imageNames.flatMap (fun n => (pushOneImage url (env.perImage n) n).outcomes),
    errors := imageNames.flatMap (fun n => (pushOneImage url (env.perImage n) n).errors),
    warnings := registryTestWarnings url env.registryTest
      ++ imageNames.flatMap (fun n => (pushOneImage url (env.perImage n) n).warnings) }

/-! ### Pipeline orchestrator (`processDockerTarFile`) and the upload route -/

/-- Observable steps of one request, in the order they happen; `unlinkCall`
records an `fs.unlink` of the uploaded tar (and whether it succeeded),
`respond` the HTTP response. -/
inductive Event where
  | validateCall
  | loadCall
  | pushCall
  | unlinkCall (ok : Bool)
  | respond (status : Nat)
deriving Repr, DecidableEq, BEq

/-- Environment of one pipeline run: the registry url, the `docker version`
daemon probe, the loader and pusher environments, and the `fs.unlink` of
the uploaded tar file. -/
structure PipelineEnv where
  registryUrl : String
  dockerVersion : Except String Unit
  loadEnv : LoadEnv
  pushEnv : PushEnv
  unlink : Except String Unit

/-- The message `processDockerTarFile` throws when the docker daemon probe
fails (the inner throw re-wrapped by the function's outer catch). -/
def dockerDaemonErrorMsg : String :=
  "Docker tar processing failed: Docker daemon is not accessible. Ensure Docker is running and accessible from this container."

/-- The terminal tar-file cleanup of `processDockerTarFile`: a failed unlink
is caught and becomes a warning. -/
def cleanupStep : Except String Unit → List String × Bool
  | .ok _ => ([], true)
  | .error msg => (["Failed to cleanup tar file: " ++ msg], false)

/-- Embedding of `processDockerTarFile`, paired with the events it performs.
It throws only for the daemon probe; the loader is total, the push stage
runs only when at least one image was loaded (its surrounding catch is
unreachable since the pusher never throws), and the tar cleanup always
runs last, its failure becoming a warning. -/
def processDockerTarFile (env : PipelineEnv) : Except String (PipelineResult × List Event) :=
  match env.dockerVersion with
  | .error _ => .error dockerDaemonErrorMsg
  | .ok _ =>
    let loadResult := loadDockerImagesFromTar env.loadEnv
    let cleanup := cleanupStep env.unlink
    if 0 < loadResult.images.length then
      let pushResult := pushImagesToLocalRegistry env.registryUrl env.pushEnv loadResult.images
      .ok ({ loadedImages := loadResult.images,
             pushedImages := pushResult.pushedImages,
             errors := loadResult.errors ++ pushResult.errors,
             warnings := loadResult.warnings ++ pushResult.warnings ++ cleanup.1 },
           [Event.loadCall, Event.pushCall, Event.unlinkCall cleanup.2])
    else
      .ok ({ loadedImages := loadResult.images,
             pushedImages := [],
             errors := loadResult.errors,
             warnings := loadResult.warnings ++ ["No images were loaded from the tar file"] ++ cleanup.1 },
           [Event.loadCall, Event.unlinkCall cleanup.2])

/-- The multer-staged upload, as the route handler sees it. -/
structure UploadedFile where
  filename : String
  path : String

/-- The JSON body of the route's response. -/
inductive ResponseBody where
  | ok (message : String) (file : String) (dockerResult : PipelineResult)
  | err (error : String) (details : Option String)
deriving Repr, DecidableEq

/-- Status, body and performed events of one request. -/
structure HandlerResult where
  status : Nat
  body : ResponseBody
  events : List Event
deriving Repr, DecidableEq

/-- Embedding of the `POST /api/upload-docker-tar` handler.  No file: 400
immediately.  Invalid tar: unlink then 400 — should that unlink throw, the
outer catch retries the unlink (failing again) and responds 500 with the
unlink error as details.  Otherwise `processDockerTarFile` runs; its only
throw (daemon unreachable) reaches the outer catch, which unlinks the file
(best effort) and responds 500; on success the handler responds 200 with
the pipeline result. -/
def uploadDockerTarHandler (file : Option UploadedFile) (venv : ValidateEnv)
    (penv : PipelineEnv) : HandlerResult :=
  match file with
  | none => { status := 400, body := .err "No tar file uploaded" none, events := [.respond 400] }
  | some f =>
    let validationResult := validateDockerTarFile venv
    if !validationResult.isValid then
      match penv.unlink with
      | .ok _ =>
        { status := 400, body := .err "Invalid Docker tar file" validationResult.error,
          events := [.validateCall, .unlinkCall true, .respond 400] }
      | .error msg =>
        { status := 500, body := .err "Failed to process Docker tar upload" (some msg),
          events := [.validateCall, .unlinkCall false, .unlinkCall false, .respond 500] }
    else
      match processDockerTarFile penv with
      | .ok (dockerResult, evs) =>
        { status := 200,
          body := .ok "Docker tar file uploaded and images processed successfully" f.filename dockerResult,
          events := Event.validateCall :: evs ++ [.respond 200] }
      | .error msg =>
        match penv.unlink with
        | .ok _ =>
          { status := 500, body := .err "Failed to process Docker tar upload" (some msg),
            events := [.validateCall, .unlinkCall true, .respond 500] }
        | .error _ =>
          { status := 500, body := .err "Failed to process Docker tar upload" (some msg),
            events := [.validateCall, .unlinkCall false, .respond 500] }

/-- Whether the uploaded tar was successfully unlinked strictly before the
response was sent. -/
def deletedBeforeRespond (events : List Event) : Bool :=
  (events.takeWhile (fun e =>
      match e with
      | Event.respond _ => false
      | _ => true)).any (fun e => e == Event.unlinkCall true)

/-- Whether some unlink of the uploaded tar (successful or not) happens
strictly before the response is sent. -/
def unlinkAttemptedBeforeRespond (events : List Event) : Bool :=
  (events.takeWhile (fun e =>
      match e with
      | Event.respond _ => false
      | _ => true)).any (fun e =>
    match e with
    | Event.unlinkCall _ => true
    | _ => false)

/-! ### Helper lemmas -/

/-- The loop body always appends outcomes whose first projection is typed
`original` and second `latest`, both naming the source image. -/
theorem pushOneImage_pair (url : String) (e : ImagePushEnv) (n : String) :
    ((pushOneImage url e n).outcomes.map fun o => (o.originalName, o.type))
      = [(n, "original"), (n, "latest")] := by
  rcases e with ⟨t1, p1, t2, p2, r1, r2⟩
  cases t1 <;> cases p1 <;> cases t2 <;> cases p2 <;> rfl

/-- The loop body always appends exactly two outcomes per image. -/
theorem pushOneImage_length (url : String) (e : ImagePushEnv) (n : String) :
    (pushOneImage url e n).outcomes.length = 2 := by
  rcases e with ⟨t1, p1, t2, p2, r1, r2⟩
  cases t1 <;> cases p1 <;> cases t2 <;> cases p2 <;> rfl

/-- Both outcomes are successes when no step threw, both failures otherwise. -/
theorem pushOneImage_status (url : String) (e : ImagePushEnv) (n : String) :
    ((pushOneImage url e n).outcomes.map fun o => o.status)
      = (if stepError e = none then ["success", "success"] else ["failed", "failed"]) := by
  rcases e with ⟨t1, p1, t2, p2, r1, r2⟩
  cases t1 <;> cases p1 <;> cases t2 <;> cases p2 <;> rfl

/-- When a step threw, the loop body records the two placeholder failure
outcomes and one error line carrying the thrown message. -/
theorem pushOneImage_of_stepError (url n : String) (e : ImagePushEnv) (msg : String)
    (h : stepError e = some msg) :
    (pushOneImage url e n).outcomes = failedOutcomes url n msg
    ∧ (pushOneImage url e n).errors = ["Failed to push " ++ n ++ ": " ++ msg] := by
  rcases e with ⟨t1, p1, t2, p2, r1, r2⟩
  cases t1 <;> cases p1 <;> cases t2 <;> cases p2 <;>
    simp only [stepError, Option.some.injEq, reduceCtorEq] at h <;>
    subst h <;> exact ⟨rfl, rfl⟩

/-- When no step threw, the loop body records the two success outcomes and
no error line. -/
theorem pushOneImage_of_ok (url n : String) (e : ImagePushEnv)
    (h : stepError e = none) :
    (pushOneImage url e n).outcomes = successOutcomes url n
    ∧ (pushOneImage url e n).errors = [] := by
  rcases e with ⟨t1, p1, t2, p2, r1, r2⟩
  cases t1 <;> cases p1 <;> cases t2 <;> cases p2 <;>
    simp only [stepError, reduceCtorEq] at h <;> exact ⟨rfl, rfl⟩

/-- A pushed-outcome list over a name list has twice its length. -/
theorem flatMap_outcomes_length (url : String) (env : PushEnv) (l : List String) :
    (l.flatMap fun n => (pushOneImage url (env.perImage n) n).outcomes).length
      = 2 * l.length := by
  induction l with
  | nil => rfl
  | cons a as ih =>
    simp only [List.flatMap_cons, List.length_append, ih, List.length_cons,
      pushOneImage_length]
    omega

/-- Loader result when strategy 1 finds names: they are the images, no
error, and only the stderr warning can be present. -/
theorem load_strat1_eq (env : LoadEnv) (stdout stderr : String)
    (hpath : env.pathExists = true) (hload : env.dockerLoad = .ok (stdout, stderr))
    (h1 : loadedImageMatches stdout ≠ []) :
    loadDockerImagesFromTar env =
      { images := loadedImageMatches stdout, errors := [],
        warnings := dockerLoadWarnings stderr } := by
  simp [loadDockerImagesFromTar, hpath, hload, h1]

/-- Loader result when strategy 1 is empty and strategy 2 recovers tags. -/
theorem load_strat2_eq (env : LoadEnv) (stdout stderr : String)
    (hpath : env.pathExists = true) (hload : env.dockerLoad = .ok (stdout, stderr))
    (h1 : loadedImageMatches stdout = []) (h2 : inspectImages env stdout ≠ []) :
    loadDockerImagesFromTar env =
      { images := inspectImages env stdout, errors := [],
        warnings := dockerLoadWarnings stderr ++ inspectWarnings env stdout } := by
  simp [loadDockerImagesFromTar, hpath, hload, h1, h2]

/-- Loader result when strategies 1 and 2 are empty: strategy 3 supplies
the images, and the no-images error appears exactly when it is empty too. -/
theorem load_strat3_eq (env : LoadEnv) (stdout stderr : String)
    (hpath : env.pathExists = true) (hload : env.dockerLoad = .ok (stdout, stderr))
    (h1 : loadedImageMatches stdout = []) (h2 : inspectImages env stdout = []) :
    loadDockerImagesFromTar env =
      { images := (recentImagesStep env).1,
        errors := if (recentImagesStep env).1.isEmpty then [noImagesLoadedMsg] else [],
        warnings := dockerLoadWarnings stderr ++ inspectWarnings env stdout
          ++ (recentImagesStep env).2 } := by
  simp [loadDockerImagesFromTar, hpath, hload, h1, h2]

/-- `processDockerTarFile` with a reachable daemon and no loaded image:
the push stage is skipped and the no-images warning appended. -/
theorem process_no_images (penv : PipelineEnv) (hdv : penv.dockerVersion = .ok ())
    (h : (loadDockerImagesFromTar penv.loadEnv).images = []) :
    processDockerTarFile penv = .ok
      ({ loadedImages := [], pushedImages := [],
         errors := (loadDockerImagesFromTar penv.loadEnv).errors,
         warnings := (loadDockerImagesFromTar penv.loadEnv).warnings
           ++ ["No images were loaded from the tar file"] ++ (cleanupStep penv.unlink).1 },
       [Event.loadCall, Event.unlinkCall (cleanupStep penv.unlink).2]) := by
  simp [processDockerTarFile, hdv, h]

/-- `processDockerTarFile` with a reachable daemon and at least one loaded
image: the pusher runs on the loaded images and the lists concatenate. -/
theorem process_with_images (penv : PipelineEnv) (hdv : penv.dockerVersion = .ok ())
    (h : 0 < (loadDockerImagesFromTar penv.loadEnv).images.length) :
    processDockerTarFile penv = .ok
      ({ loadedImages := (loadDockerImagesFromTar penv.loadEnv).images,
         pushedImages := (pushImagesToLocalRegistry penv.registryUrl penv.pushEnv
           (loadDockerImagesFromTar penv.loadEnv).images).pushedImages,
         errors := (loadDockerImagesFromTar penv.loadEnv).errors
           ++ (pushImagesToLocalRegistry penv.registryUrl penv.pushEnv
             (loadDockerImagesFromTar penv.loadEnv).images).errors,
         warnings := (loadDockerImagesFromTar penv.loadEnv).warnings
           ++ (pushImagesToLocalRegistry penv.registryUrl penv.pushEnv
             (loadDockerImagesFromTar penv.loadEnv).images).warnings
           ++ (cleanupStep penv.unlink).1 },
       [Event.loadCall, Event.pushCall, Event.unlinkCall (cleanupStep penv.unlink).2]) := by
  simp [processDockerTarFile, hdv, h]

/-- The 200 path of the route: a valid tar and a non-throwing pipeline. -/
theorem handler_200 (f : UploadedFile) (venv : ValidateEnv) (penv : PipelineEnv)
    (hval : (validateDockerTarFile venv).isValid = true)
    (res : PipelineResult) (evs : List Event)
    (hp : processDockerTarFile penv = .ok (res, evs)) :
    uploadDockerTarHandler (some f) venv penv =
      { status := 200,
        body := .ok "Docker tar file uploaded and images processed successfully" f.filename res,
        events := Event.validateCall :: evs ++ [Event.respond 200] } := by
  simp [uploadDockerTarHandler, hval, hp]

/-- A stat-backed, in-range file whose two tar listings succeed validates. -/
theorem validate_ok_of_listing (env : ValidateEnv) (st : FileStat)
    (headOut fullList : String)
    (hstat : env.stat = .ok st) (hfile : st.isFile = true) (hsz : st.size ≠ 0)
    (hbig : ¬ st.size > maxTarSize)
    (hh : env.tarListHead = .ok headOut) (hf : env.tarListFull = .ok fullList) :
    validateDockerTarFile env = ⟨true, none⟩ := by
  simp [validateDockerTarFile, hstat, hfile, hsz, hbig, hh, hf]

/-! ### Claims about the registry pusher -/

/-- A per-image environment in which the versioned tag and push succeed and
the push of the latest tag throws. -/
def latestFailEnv : ImagePushEnv :=
  { tagOriginal := .ok (), pushOriginal := .ok "", tagLatest := .ok (),
    pushLatest := .error "connection refused", rmiOriginal := .ok (), rmiLatest := .ok () }

/-- A push environment whose probe succeeds quietly and in which every
image behaves like `latestFailEnv`. -/
def latestFailPushEnv : PushEnv :=
  { registryTest := .ok "", perImage := fun _ => latestFailEnv }

/-- C1 counterexample: for the image `myapp:1.2.0` whose versioned push
succeeds but whose latest push fails, the claim says the result holds
exactly one PushOutcome with status `success` (type `original`); in the
code the exception from the latest push reaches the per-image catch, which
records two `failed` outcomes, so the number of success outcomes is 0, not
1. -/
theorem c1_latest_failure_counterexample :
    ¬ (((pushImagesToLocalRegistry "100.103.254.213:5001" latestFailPushEnv
          ["myapp:1.2.0"]).pushedImages.filter
            (fun o => o.status == "success")).length = 1) := by decide

/-- C1 (amended): a PushOutcome of type `latest` is recorded for every
input either way, but not independently: the first failing tag/push step
jumps to the catch, which records two `failed` outcomes (types `original`
and `latest`) carrying the thrown message — in particular a versioned
success followed by a latest failure yields two failed outcomes, not one
success and one failure; two success outcomes arise exactly when all four
steps succeed. -/
theorem c1_amended_latest_not_independent (url imageName : String) (e : ImagePushEnv) :
    (∀ msg, stepError e = some msg →
      (pushOneImage url e imageName).outcomes = failedOutcomes url imageName msg)
    ∧ (stepError e = none →
      (pushOneImage url e imageName).outcomes = successOutcomes url imageName)
    ∧ ((pushOneImage url e imageName).outcomes.map fun o => o.type)
        = ["original", "latest"] := by
  refine ⟨fun msg h => (pushOneImage_of_stepError url imageName e msg h).1,
    fun h => (pushOneImage_of_ok url imageName e h).1, ?_⟩
  rcases e with ⟨t1, p1, t2, p2, r1, r2⟩
  cases t1 <;> cases p1 <;> cases t2 <;> cases p2 <;> rfl

/-- Witness for the amended C1 at the latest-push-fails environment. -/
theorem c1_amended_witness :
    (pushOneImage "100.103.254.213:5001" latestFailEnv "myapp:1.2.0").outcomes
      = failedOutcomes "100.103.254.213:5001" "myapp:1.2.0" "connection refused" :=
  (c1_amended_latest_not_independent "100.103.254.213:5001" "myapp:1.2.0" latestFailEnv).1
    "connection refused" (by decide)

/-- C2: every input reference contributes exactly its loop-body outcomes —
two per reference, one of type `original` and one of type `latest`, both
naming that reference, successes exactly when no step threw — so
`pushedImages` has length twice the number of input references. -/
theorem c2_two_outcomes_per_reference (url : String) (env : PushEnv)
    (imageNames : List String) :
    (pushImagesToLocalRegistry url env imageNames).pushedImages
      = imageNames.flatMap (fun n => (pushOneImage url (env.perImage n) n).outcomes)
    ∧ (pushImagesToLocalRegistry url env imageNames).pushedImages.length
      = 2 * imageNames.length
    ∧ (∀ n e, ((pushOneImage url e n).outcomes.map fun o => (o.originalName, o.type))
        = [(n, "original"), (n, "latest")])
    ∧ (∀ n e, ((pushOneImage url e n).outcomes.map fun o => o.status)
        = if stepError e = none then ["success", "success"] else ["failed", "failed"]) :=
  ⟨rfl, flatMap_outcomes_length url env imageNames,
    fun n e => pushOneImage_pair url e n, fun n e => pushOneImage_status url e n⟩

/-- C9: the derived registry targets depend only on the substring after the
last `/` of the source reference, so two references with the same base
name (last path segment with its tag) map to the same versioned and latest
targets — the later push overwrites the earlier under those coordinates. -/
theorem c9_prefix_discarded_collision (url s1 s2 : String)
    (h : imageBaseName s1 = imageBaseName s2) :
    repoAndTag s1 = repoAndTag s2
    ∧ originalLocalImageName url s1 = originalLocalImageName url s2
    ∧ latestLocalImageName url s1 = latestLocalImageName url s2 := by
  have hr : repoAndTag s1 = repoAndTag s2 := by unfold repoAndTag; rw [h]
  exact ⟨hr, by unfold originalLocalImageName; rw [hr],
    by unfold latestLocalImageName; rw [hr]⟩

/-- Witness for C9 at `teamA/app:1.0` and `teamB/app:1.0`. -/
theorem c9_witness :
    repoAndTag "teamA/app:1.0" = repoAndTag "teamB/app:1.0"
    ∧ originalLocalImageName "100.103.254.213:5001" "teamA/app:1.0"
        = originalLocalImageName "100.103.254.213:5001" "teamB/app:1.0"
    ∧ latestLocalImageName "100.103.254.213:5001" "teamA/app:1.0"
        = latestLocalImageName "100.103.254.213:5001" "teamB/app:1.0" :=
  c9_prefix_discarded_collision "100.103.254.213:5001" "teamA/app:1.0" "teamB/app:1.0"
    (by decide)

/-! ### Claims about the tar validator -/

/-- C7: with a successful stat of a regular file, an empty file is rejected
as empty, then an oversized file as too large, then a failed listing (the
`head` one or the full one) as not a tar, in that order; a stat failure is
caught and reported as a result, so validate never throws. -/
theorem c7_validate_checks_in_order (env : ValidateEnv) (st : FileStat)
    (hstat : env.stat = .ok st) (hfile : st.isFile = true) :
    (st.size = 0 →
      validateDockerTarFile env = ⟨false, some "Tar file is empty"⟩)
    ∧ (st.size ≠ 0 → st.size > maxTarSize →
      validateDockerTarFile env = ⟨false, some "Tar file is too large (max 5GB)"⟩)
    ∧ (st.size ≠ 0 → ¬ st.size > maxTarSize → ∀ m, env.tarListHead = .error m →
      validateDockerTarFile env = ⟨false, some "File is not a valid tar archive"⟩)
    ∧ (st.size ≠ 0 → ¬ st.size > maxTarSize → ∀ headOut m,
        env.tarListHead = .ok headOut → env.tarListFull = .error m →
      validateDockerTarFile env = ⟨false, some "File is not a valid tar archive"⟩)
    ∧ (∀ env2 m, ValidateEnv.stat env2 = .error m →
      validateDockerTarFile env2 = ⟨false, some ("Validation failed: " ++ m)⟩) := by
  refine ⟨fun h0 => ?_, fun h0 hbig => ?_, fun h0 hbig m hm => ?_,
    fun h0 hbig headOut m hh hm => ?_, fun env2 m hm => ?_⟩
  · simp [validateDockerTarFile, hstat, hfile, h0]
  · simp [validateDockerTarFile, hstat, hfile, h0, hbig]
  · simp [validateDockerTarFile, hstat, hfile, h0, hbig, hm]
  · simp [validateDockerTarFile, hstat, hfile, h0, hbig, hh, hm]
  · simp [validateDockerTarFile, hm]

/-- The environment of a validation of an empty uploaded file. -/
def emptyFileValidateEnv : ValidateEnv :=
  { stat := .ok ⟨true, 0⟩, tarListHead := .ok "", tarListFull := .ok "" }

/-- Witness for C7: an empty regular file is rejected as empty. -/
theorem c7_witness :
    validateDockerTarFile emptyFileValidateEnv = ⟨false, some "Tar file is empty"⟩ :=
  (c7_validate_checks_in_order emptyFileValidateEnv ⟨true, 0⟩ rfl rfl).1 rfl

/-- C8: whenever the tar listing succeeds, validation passes; in
particular a listing with no `manifest.json` and no `.json` entry still
yields `isValid = true`. -/
theorem c8_missing_manifest_still_valid (env : ValidateEnv) (st : FileStat)
    (headOut fullList : String)
    (hstat : env.stat = .ok st) (hfile : st.isFile = true) (hsz : st.size ≠ 0)
    (hbig : ¬ st.size > maxTarSize)
    (hh : env.tarListHead = .ok headOut) (hf : env.tarListFull = .ok fullList)
    (_hnoman : jsIncludes fullList "manifest.json" = false)
    (_hnojson : jsIncludes fullList ".json" = false) :
    validateDockerTarFile env = ⟨true, none⟩ :=
  validate_ok_of_listing env st headOut fullList hstat hfile hsz hbig hh hf

/-- The environment of a validation whose listing names no json entry. -/
def noManifestValidateEnv : ValidateEnv :=
  { stat := .ok ⟨true, 2048⟩, tarListHead := .ok "etc/config.txt",
    tarListFull := .ok "etc/config.txt\nusr/bin/tool" }

/-- Witness for C8 at a listing holding only non-json entries. -/
theorem c8_witness : validateDockerTarFile noManifestValidateEnv = ⟨true, none⟩ :=
  c8_missing_manifest_still_valid noManifestValidateEnv ⟨true, 2048⟩
    "etc/config.txt" "etc/config.txt\nusr/bin/tool" rfl rfl (by decide) (by decide)
    rfl rfl (by decide) (by decide)

/-! ### Claims about the image loader -/

/-- C6 (amended): the three recovery strategies run in priority order,
each tried only while the image list is still empty; strategy 3 keeps at
most 5 recent images and, when it is the one supplying them, pushes the
approximation warning.  The per-id could-not-determine warning, however,
is emitted when the `docker inspect` call errors — not whenever the
inspection yields no repository:tag reference: a successful inspect whose
output filters down to nothing stays silent. -/
theorem c6_amended_strategy_order (env : LoadEnv) (stdout stderr : String)
    (hpath : env.pathExists = true) (hload : env.dockerLoad = .ok (stdout, stderr)) :
    (loadedImageMatches stdout ≠ [] →
      (loadDockerImagesFromTar env).images = loadedImageMatches stdout)
    ∧ (loadedImageMatches stdout = [] → inspectImages env stdout ≠ [] →
      (loadDockerImagesFromTar env).images = inspectImages env stdout)
    ∧ (loadedImageMatches stdout = [] → inspectImages env stdout = [] →
      (loadDockerImagesFromTar env).images = (recentImagesStep env).1)
    ∧ (∀ out, env.dockerImages = .ok out →
      (recentImagesStep env).1
        = if (recentImagesOf out).isEmpty then [] else (recentImagesOf out).take 5)
    ∧ (recentImagesStep env).1.length ≤ 5
    ∧ (loadedImageMatches stdout = [] →
      ∀ i ∈ imageIdMatches stdout, ∀ m, env.inspect i = .error m →
        ("Loaded image with ID " ++ i ++ " but couldn't determine name")
          ∈ (loadDockerImagesFromTar env).warnings)
    ∧ (loadedImageMatches stdout = [] → inspectImages env stdout = [] →
      ∀ out, env.dockerImages = .ok out → recentImagesOf out ≠ [] →
        "Could not parse loaded images from docker load output, using recently available images"
          ∈ (loadDockerImagesFromTar env).warnings) := by
  refine ⟨fun h1 => ?_, fun h1 h2 => ?_, fun h1 h2 => ?_, fun out hout => ?_, ?_,
    fun h1 i hi m hm => ?_, fun h1 h2 out hout hrec => ?_⟩
  · rw [load_strat1_eq env stdout stderr hpath hload h1]
  · rw [load_strat2_eq env stdout stderr hpath hload h1 h2]
  · rw [load_strat3_eq env stdout stderr hpath hload h1 h2]
  · by_cases hc : (recentImagesOf out).isEmpty <;> simp [recentImagesStep, hout, hc]
  · cases hdi : env.dockerImages with
    | error m => simp [recentImagesStep, hdi]
    | ok out =>
      by_cases hc : (recentImagesOf out).isEmpty <;>
        simp [recentImagesStep, hdi, hc, List.length_take]
  · have hw : ("Loaded image with ID " ++ i ++ " but couldn't determine name")
        ∈ inspectWarnings env stdout :=
      List.mem_filterMap.mpr ⟨i, hi, by simp [hm]⟩
    by_cases h2 : inspectImages env stdout = []
    · rw [load_strat3_eq env stdout stderr hpath hload h1 h2]; simp [hw]
    · rw [load_strat2_eq env stdout stderr hpath hload h1 h2]; simp [hw]
  · rw [load_strat3_eq env stdout stderr hpath hload h1 h2]
    have h3 : (recentImagesStep env).2
        = ["Could not parse loaded images from docker load output, using recently available images"] := by
      simp [recentImagesStep, hout, hrec]
    simp [h3]

/-- Witness for the amended C6: one image id, inspect fails for it, so the
could-not-determine warning is present in the loader result. -/
theorem c6_amended_witness :
    ("Loaded image with ID abc123 but couldn't determine name")
      ∈ (loadDockerImagesFromTar
          { pathExists := true, dockerLoad := .ok ("Loaded image ID: abc123", ""),
            inspect := fun _ => .error "no such object",
            dockerImages := .ok "" }).warnings :=
  (c6_amended_strategy_order
      { pathExists := true, dockerLoad := .ok ("Loaded image ID: abc123", ""),
        inspect := fun _ => .error "no such object", dockerImages := .ok "" }
      "Loaded image ID: abc123" "" rfl rfl).2.2.2.2.2.1
    (by decide) "abc123" (by decide) "no such object" rfl

/-- An environment in which one image id is recovered and its inspect
SUCCEEDS but yields only `<none>`, i.e. no repository:tag reference. -/
def inspectNoNameEnv : LoadEnv :=
  { pathExists := true, dockerLoad := .ok ("Loaded image ID: abc123", ""),
    inspect := fun _ => .ok "<none>", dockerImages := .ok "" }

/-- C6 counterexample: strategy 2 parses the id `abc123` and its inspection
yields no repository:tag reference, yet the loader result carries NO
warning at all — contradicting the claim that a warning is emitted
whenever inspection yields none (the code warns only when the inspect
command errors). -/
theorem c6_counterexample_silent_empty_inspect :
    imageIdMatches "Loaded image ID: abc123" = ["abc123"]
    ∧ repoTagsOf "<none>" = []
    ∧ inspectImages inspectNoNameEnv "Loaded image ID: abc123" = []
    ∧ (loadDockerImagesFromTar inspectNoNameEnv).warnings = []
    ∧ ("Loaded image with ID abc123 but couldn't determine name")
        ∉ (loadDockerImagesFromTar inspectNoNameEnv).warnings := by decide

/-- The loader environment of a tar from which no strategy recovers a name:
`docker load` succeeds but prints no recognized line, and `docker images`
prints nothing. -/
def noImagesLoadEnv : LoadEnv :=
  { pathExists := true, dockerLoad := .ok ("no names here", ""),
    inspect := fun _ => .ok "", dockerImages := .ok "" }

/-- C4: when all three strategies recover nothing, the loader returns (it
cannot throw) an empty image list with the no-images error; the
orchestrator then skips the push stage, and the route answers 200 with
`loadedImages = []` and `pushedImages = []`. -/
theorem c4_no_images_skips_push (f : UploadedFile) (venv : ValidateEnv)
    (penv : PipelineEnv) (st : FileStat) (headOut fullList stdout stderr : String)
    (hstat : venv.stat = .ok st) (hfile : st.isFile = true) (hsz : st.size ≠ 0)
    (hbig : ¬ st.size > maxTarSize)
    (hh : venv.tarListHead = .ok headOut) (hf : venv.tarListFull = .ok fullList)
    (hdv : penv.dockerVersion = .ok ())
    (hpath : penv.loadEnv.pathExists = true)
    (hload : penv.loadEnv.dockerLoad = .ok (stdout, stderr))
    (h1 : loadedImageMatches stdout = [])
    (h2 : inspectImages penv.loadEnv stdout = [])
    (h3 : (recentImagesStep penv.loadEnv).1 = []) :
    (loadDockerImagesFromTar penv.loadEnv).images = []
    ∧ noImagesLoadedMsg ∈ (loadDockerImagesFromTar penv.loadEnv).errors
    ∧ (uploadDockerTarHandler (some f) venv penv).status = 200
    ∧ (∃ res, (uploadDockerTarHandler (some f) venv penv).body
        = ResponseBody.ok "Docker tar file uploaded and images processed successfully"
            f.filename res
        ∧ res.loadedImages = [] ∧ res.pushedImages = [] ∧ noImagesLoadedMsg ∈ res.errors)
    ∧ Event.pushCall ∉ (uploadDockerTarHandler (some f) venv penv).events := by
  have hl := load_strat3_eq penv.loadEnv stdout stderr hpath hload h1 h2
  have himg : (loadDockerImagesFromTar penv.loadEnv).images = [] := by rw [hl]; exact h3
  have herr : (loadDockerImagesFromTar penv.loadEnv).errors = [noImagesLoadedMsg] := by
    rw [hl]; simp [h3]
  have hv : (validateDockerTarFile venv).isValid = true := by
    rw [validate_ok_of_listing venv st headOut fullList hstat hfile hsz hbig hh hf]
  have hp := process_no_images penv hdv himg
  have hh200 := handler_200 f venv penv hv _ _ hp
  refine ⟨himg, by rw [herr]; exact List.mem_singleton.mpr rfl, by rw [hh200], ?_, ?_⟩
  · refine ⟨_, by rw [hh200], rfl, rfl, ?_⟩
    rw [herr]; exact List.mem_singleton.mpr rfl
  · rw [hh200]; simp

/-- The pipeline environment of a run over `noImagesLoadEnv` with daemon,
registry and unlink all cooperative. -/
def noImagesPipelineEnv : PipelineEnv :=
  { registryUrl := "100.103.254.213:5001", dockerVersion := .ok (),
    loadEnv := noImagesLoadEnv,
    pushEnv := { registryTest := .ok "", perImage := fun _ =>
      { tagOriginal := .ok (), pushOriginal := .ok "", tagLatest := .ok (),
        pushLatest := .ok "", rmiOriginal := .ok (), rmiLatest := .ok () } },
    unlink := .ok () }

/-- The environment of a validation that passes with a json-bearing listing. -/
def manifestValidateEnv : ValidateEnv :=
  { stat := .ok ⟨true, 4096⟩, tarListHead := .ok "manifest.json",
    tarListFull := .ok "manifest.json\nrepositories" }

/-- Witness for C4 at an upload whose load output names no image. -/
theorem c4_witness :
    (loadDockerImagesFromTar noImagesPipelineEnv.loadEnv).images = []
    ∧ noImagesLoadedMsg ∈ (loadDockerImagesFromTar noImagesPipelineEnv.loadEnv).errors
    ∧ (uploadDockerTarHandler (some ⟨"app.tar", "/uploads/app.tar"⟩)
        manifestValidateEnv noImagesPipelineEnv).status = 200
    ∧ (∃ res, (uploadDockerTarHandler (some ⟨"app.tar", "/uploads/app.tar"⟩)
          manifestValidateEnv noImagesPipelineEnv).body
        = ResponseBody.ok "Docker tar file uploaded and images processed successfully"
            "app.tar" res
        ∧ res.loadedImages = [] ∧ res.pushedImages = [] ∧ noImagesLoadedMsg ∈ res.errors)
    ∧ Event.pushCall ∉ (uploadDockerTarHandler (some ⟨"app.tar", "/uploads/app.tar"⟩)
        manifestValidateEnv noImagesPipelineEnv).events :=
  c4_no_images_skips_push ⟨"app.tar", "/uploads/app.tar"⟩ manifestValidateEnv
    noImagesPipelineEnv ⟨true, 4096⟩ "manifest.json" "manifest.json\nrepositories"
    "no names here" "" rfl rfl (by decide) (by decide) rfl rfl rfl rfl rfl
    (by decide) (by decide) (by decide)

/-! ### Claims about the upload route -/

/-- C5: a push failure on one reference aborts nothing: the route still
answers 200, that reference's failure shows up in the result's errors and
(as two failed outcomes) in `pushedImages`, and every other reference —
in particular every one after the failing one — still contributes its own
outcomes, the total staying two per reference. -/
theorem c5_push_failure_does_not_abort (f : UploadedFile) (venv : ValidateEnv)
    (penv : PipelineEnv) (st : FileStat) (headOut fullList : String)
    (names1 names2 : List String) (bad msg : String)
    (hstat : venv.stat = .ok st) (hfile : st.isFile = true) (hsz : st.size ≠ 0)
    (hbig : ¬ st.size > maxTarSize)
    (hh : venv.tarListHead = .ok headOut) (hf : venv.tarListFull = .ok fullList)
    (hdv : penv.dockerVersion = .ok ())
    (himgs : (loadDockerImagesFromTar penv.loadEnv).images = names1 ++ bad :: names2)
    (hbad : stepError (penv.pushEnv.perImage bad) = some msg) :
    (uploadDockerTarHandler (some f) venv penv).status = 200
    ∧ ∃ res, (uploadDockerTarHandler (some f) venv penv).body
        = ResponseBody.ok "Docker tar file uploaded and images processed successfully"
            f.filename res
      ∧ ("Failed to push " ++ bad ++ ": " ++ msg) ∈ res.errors
      ∧ (∀ o ∈ failedOutcomes penv.registryUrl bad msg, o ∈ res.pushedImages)
      ∧ res.pushedImages = (names1 ++ bad :: names2).flatMap
          (fun n => (pushOneImage penv.registryUrl (penv.pushEnv.perImage n) n).outcomes)
      ∧ res.pushedImages.length = 2 * (names1 ++ bad :: names2).length
      ∧ (∀ n ∈ names2,
          ∀ o ∈ (pushOneImage penv.registryUrl (penv.pushEnv.perImage n) n).outcomes,
            o ∈ res.pushedImages) := by
  have hv : (validateDockerTarFile venv).isValid = true := by
    rw [validate_ok_of_listing venv st headOut fullList hstat hfile hsz hbig hh hf]
  have hlen : 0 < (loadDockerImagesFromTar penv.loadEnv).images.length := by
    rw [himgs]; simp
  have hp := process_with_images penv hdv hlen
  rw [himgs] at hp
  have h200 := handler_200 f venv penv hv _ _ hp
  have hbadmem : bad ∈ names1 ++ bad :: names2 := by simp
  have hbadout := pushOneImage_of_stepError penv.registryUrl bad
    (penv.pushEnv.perImage bad) msg hbad
  refine ⟨by rw [h200], _, by rw [h200], ?_, ?_, rfl, ?_, ?_⟩
  · show _ ∈ (loadDockerImagesFromTar penv.loadEnv).errors ++ _
    refine List.mem_append_right _ ?_
    show _ ∈ (names1 ++ bad :: names2).flatMap _
    exact List.mem_flatMap.mpr ⟨bad, hbadmem,
      by rw [hbadout.2]; exact List.mem_singleton.mpr rfl⟩
  · intro o ho
    show o ∈ (names1 ++ bad :: names2).flatMap _
    exact List.mem_flatMap.mpr ⟨bad, hbadmem, by rw [hbadout.1]; exact ho⟩
  · exact flatMap_outcomes_length penv.registryUrl penv.pushEnv (names1 ++ bad :: names2)
  · intro n hn o ho
    show o ∈ (names1 ++ bad :: names2).flatMap _
    exact List.mem_flatMap.mpr ⟨n, by simp [hn], ho⟩

/-- A per-image environment in which every docker invocation succeeds. -/
def allOkImagePushEnv : ImagePushEnv :=
  { tagOriginal := .ok (), pushOriginal := .ok "", tagLatest := .ok (),
    pushLatest := .ok "", rmiOriginal := .ok (), rmiLatest := .ok () }

/-- A per-image environment whose versioned push throws. -/
def originalFailImagePushEnv : ImagePushEnv :=
  { tagOriginal := .ok (), pushOriginal := .error "boom", tagLatest := .ok (),
    pushLatest := .ok "", rmiOriginal := .ok (), rmiLatest := .ok () }

/-- A push environment in which only `alpha:1` fails. -/
def mixedPushEnv : PushEnv :=
  { registryTest := .ok "",
    perImage := fun n => if n == "alpha:1" then originalFailImagePushEnv else allOkImagePushEnv }

/-- A loader environment recovering `alpha:1` and `beta:2` via strategy 1. -/
def twoImagesLoadEnv : LoadEnv :=
  { pathExists := true,
    dockerLoad := .ok ("Loaded image: alpha:1\nLoaded image: beta:2", ""),
    inspect := fun _ => .ok "", dockerImages := .ok "" }

/-- The pipeline environment of a run in which the first of two loaded
images fails to push. -/
def mixedPipelineEnv : PipelineEnv :=
  { registryUrl := "100.103.254.213:5001", dockerVersion := .ok (),
    loadEnv := twoImagesLoadEnv, pushEnv := mixedPushEnv, unlink := .ok () }

/-- Witness for C5: `alpha:1` fails, `beta:2` after it is still processed. -/
theorem c5_witness :
    (uploadDockerTarHandler (some ⟨"two.tar", "/uploads/two.tar"⟩)
        manifestValidateEnv mixedPipelineEnv).status = 200
    ∧ ∃ res, (uploadDockerTarHandler (some ⟨"two.tar", "/uploads/two.tar"⟩)
          manifestValidateEnv mixedPipelineEnv).body
        = ResponseBody.ok "Docker tar file uploaded and images processed successfully"
            (UploadedFile.mk "two.tar" "/uploads/two.tar").filename res
      ∧ ("Failed to push " ++ "alpha:1" ++ ": " ++ "boom") ∈ res.errors
      ∧ (∀ o ∈ failedOutcomes mixedPipelineEnv.registryUrl "alpha:1" "boom",
          o ∈ res.pushedImages)
      ∧ res.pushedImages = ([] ++ "alpha:1" :: ["beta:2"]).flatMap
          (fun n => (pushOneImage mixedPipelineEnv.registryUrl
            (mixedPipelineEnv.pushEnv.perImage n) n).outcomes)
      ∧ res.pushedImages.length = 2 * ([] ++ "alpha:1" :: ["beta:2"]).length
      ∧ (∀ n ∈ ["beta:2"],
          ∀ o ∈ (pushOneImage mixedPipelineEnv.registryUrl
            (mixedPipelineEnv.pushEnv.perImage n) n).outcomes,
            o ∈ res.pushedImages) :=
  c5_push_failure_does_not_abort ⟨"two.tar", "/uploads/two.tar"⟩ manifestValidateEnv
    mixedPipelineEnv ⟨true, 4096⟩ "manifest.json" "manifest.json\nrepositories"
    [] ["beta:2"] "alpha:1" "boom" rfl rfl (by decide) (by decide) rfl rfl rfl
    (by decide) (by decide)

/-- C3: on every path of a request that carries a file — invalid tar,
daemon unreachable, empty or failed load, push failures — an unlink of
the uploaded tar is attempted strictly before the response is sent, and
whenever the filesystem unlink succeeds the tar is deleted before the
response on that same path. -/
theorem c3_tar_deleted_before_response (f : UploadedFile) (venv : ValidateEnv)
    (penv : PipelineEnv) :
    unlinkAttemptedBeforeRespond
        (uploadDockerTarHandler (some f) venv penv).events = true
    ∧ (penv.unlink = .ok () →
      deletedBeforeRespond (uploadDockerTarHandler (some f) venv penv).events = true) := by
  by_cases hv : (validateDockerTarFile venv).isValid
  · cases hdv : penv.dockerVersion with
    | error e =>
      cases hu : penv.unlink with
      | ok u =>
        cases u
        simp [uploadDockerTarHandler, processDockerTarFile, hv, hdv, hu,
          deletedBeforeRespond, unlinkAttemptedBeforeRespond] <;> decide
      | error m =>
        simp [uploadDockerTarHandler, processDockerTarFile, hv, hdv, hu,
          deletedBeforeRespond, unlinkAttemptedBeforeRespond]
    | ok u =>
      cases u
      cases hu : penv.unlink with
      | ok u2 =>
        cases u2
        by_cases him : 0 < (loadDockerImagesFromTar penv.loadEnv).images.length <;>
          simp [uploadDockerTarHandler, processDockerTarFile, hv, hdv, hu, him,
            cleanupStep, deletedBeforeRespond, unlinkAttemptedBeforeRespond] <;>
          decide
      | error m =>
        by_cases him : 0 < (loadDockerImagesFromTar penv.loadEnv).images.length <;>
          simp [uploadDockerTarHandler, processDockerTarFile, hv, hdv, hu, him,
            cleanupStep, deletedBeforeRespond, unlinkAttemptedBeforeRespond]
  · cases hu : penv.unlink with
    | ok u =>
      cases u
      simp [uploadDockerTarHandler, hv, hu, deletedBeforeRespond,
        unlinkAttemptedBeforeRespond] <;> decide
    | error m =>
      simp [uploadDockerTarHandler, hv, hu, deletedBeforeRespond,
        unlinkAttemptedBeforeRespond]

/-- Witness for C3: a run over an empty (hence rejected) upload with a
cooperative filesystem deletes the tar before the 400 response. -/
theorem c3_witness :
    unlinkAttemptedBeforeRespond
        (uploadDockerTarHandler (some ⟨"app.tar", "/uploads/app.tar"⟩)
          emptyFileValidateEnv noImagesPipelineEnv).events = true
    ∧ deletedBeforeRespond
        (uploadDockerTarHandler (some ⟨"app.tar", "/uploads/app.tar"⟩)
          emptyFileValidateEnv noImagesPipelineEnv).events = true :=
  ⟨(c3_tar_deleted_before_response ⟨"app.tar", "/uploads/app.tar"⟩
      emptyFileValidateEnv noImagesPipelineEnv).1,
    (c3_tar_deleted_before_response ⟨"app.tar", "/uploads/app.tar"⟩
      emptyFileValidateEnv noImagesPipelineEnv).2 rfl⟩

/-- C10: a POST with no file under the `dockerTar` field is answered 400
with `No tar file uploaded` straight away: no validation, load, push or
unlink step runs. -/
theorem c10_no_file_short_circuit (venv : ValidateEnv) (penv : PipelineEnv) :
    uploadDockerTarHandler none venv penv
      = { status := 400, body := ResponseBody.err "No tar file uploaded" none,
          events := [Event.respond 400] }
    ∧ Event.validateCall ∉ (uploadDockerTarHandler none venv penv).events
    ∧ Event.loadCall ∉ (uploadDockerTarHandler none venv penv).events
    ∧ Event.pushCall ∉ (uploadDockerTarHandler none venv penv).events
    ∧ ∀ b, Event.unlinkCall b ∉ (uploadDockerTarHandler none venv penv).events := by
  refine ⟨rfl, ?_, ?_, ?_, fun b => ?_⟩ <;> simp [uploadDockerTarHandler]

end Buco
